import Mathlib

/-! Verification development for the translation caching and quality-routing
engine of the telegram-bot repository.

The Python sources are shallowly embedded:
* `TranslationCache` (src/translation/cache.py): the SQLite table becomes a
  `List Row`; timestamps are integers measured in days; the `hashlib.md5`
  hexdigest is an abstract parameter `md5_hexdigest : String → String`.
* `config.validate_quality` (src/config.py): the Pydantic validator becomes a
  function into `Except`.
* `IntensityAnalyzer` (src/translation/patterns.py): the `re.findall` counts
  are an abstract parameter `counts : String → ℕ` keyed by pattern name; the
  weight table, the context multipliers and the clamp are embedded exactly.
* `SubcultureSlangHandler` (src/translation/subculture.py): the literal
  alternation regexes are embedded as token lists together with an executable
  leftmost non-overlapping match counter mirroring `re.findall`.
* `TranslationManager.translate` (src/translation/translation_manager.py):
  the two network backends become oracles `ℕ → Except String String` indexed
  by the number of calls made to that backend so far; exceptions become the
  `Except.error` branch and the outer `try/except` becomes the emergency
  continuation.  The returned `TransOutcome` also records how many times each
  backend was invoked and what was stored into the cache.
-/

namespace TelegramBot

/-! Section: TranslationCache (src/translation/cache.py) -/

/-- One row of the `translations` table.  `last_used` and `created_at` are
timestamps measured in days. -/
structure Row where
  text_hash : String
  original_text : String
  translated_text : String
  source_lang : String
  target_lang : String
  quality_score : ℚ
  use_count : ℕ
  last_used : ℤ
  created_at : ℤ
  metadata : Option String
deriving DecidableEq, Repr

/-- Embeds `TranslationCache._get_text_hash`: the key is the hexdigest of the bare
concatenation of the three inputs (`f"{text}{source_lang}{target_lang}"`). -/
def get_text_hash (md5_hexdigest : String → String)
    (text source_lang target_lang : String) : String :=
  md5_hexdigest (text ++ source_lang ++ target_lang)

/-- The dictionary returned by `get_cached_translation` on a hit:
`result[0..3]` of the SELECT, fetched before the use-count UPDATE runs. -/
structure CachedView where
  translation : String
  quality_score : ℚ
  cache_hits : ℕ
  metadata : Option String
deriving DecidableEq, Repr

/-- Embeds `TranslationCache.get_cached_translation`: SELECT the row whose
`text_hash` matches and whose `last_used` is strictly inside the 30-day
window; on a hit, UPDATE that key with `use_count + 1` and `last_used = now`
and return the previously fetched columns. -/
def get_cached_translation (md5_hexdigest : String → String) (db : List Row)
    (now : ℤ) (text source_lang target_lang : String) :
    Option CachedView × List Row :=
  let h := get_text_hash md5_hexdigest text source_lang target_lang
  match db.find? (fun r => r.text_hash == h && decide (now - 30 < r.last_used)) with
  | some r =>
      (some ⟨r.translated_text, r.quality_score, r.use_count, r.metadata⟩,
       db.map (fun s =>
         if s.text_hash == h then
           { s with use_count := s.use_count + 1, last_used := now }
         else s))
  | none => (none, db)

/-- Embeds `TranslationCache.store_translation`: `INSERT OR REPLACE` deletes any row
with the same key and inserts a fresh one; `use_count` and `created_at` are
not in the column list, so they take their defaults `1` and
`CURRENT_TIMESTAMP`. -/
def store_translation (md5_hexdigest : String → String) (db : List Row)
    (now : ℤ) (text translation source_lang target_lang : String)
    (quality_score : ℚ) (metadata : Option String) : List Row :=
  let h := get_text_hash md5_hexdigest text source_lang target_lang
  (db.filter (fun r => r.text_hash != h)) ++
    [⟨h, text, translation, source_lang, target_lang, quality_score, 1, now,
      now, metadata⟩]

/-- Embeds `TranslationCache.cleanup`: DELETE the rows whose `last_used` is older
than `max_days`, or which were used exactly once and created more than 7 days
ago. -/
def cleanup (db : List Row) (now : ℤ) (max_days : ℤ) : List Row :=
  db.filter (fun r =>
    !decide (r.last_used < now - max_days ∨
      (r.use_count = 1 ∧ r.created_at < now - 7)))

/-- The dictionary built by `TranslationCache._get_cache_stats`.  The SQL
aggregates `AVG`/`SUM` are `NULL` over an empty table, hence `Option`. -/
structure CacheStats where
  total_entries : ℕ
  avg_quality : Option ℚ
  avg_use_count : Option ℚ
  total_uses : Option ℕ
  active_entries : ℕ
  high_quality_entries : ℕ
  hit_rate : ℚ
deriving DecidableEq, Repr

/-- Embeds `TranslationCache._get_cache_stats`: over an empty table `SUM(use_count)`
is `NULL`, and the Python expression `row[3] / max(row[0], 1)` then raises a
`TypeError`; the whole call fails, which the model renders as `none`. -/
def get_cache_stats (db : List Row) (now : ℤ) : Option CacheStats :=
  let total := db.length
  let total_uses : Option ℕ :=
    if db.isEmpty then none else some ((db.map Row.use_count).sum)
  let avg_quality : Option ℚ :=
    if db.isEmpty then none else some ((db.map Row.quality_score).sum / total)
  let avg_use_count : Option ℚ :=
    if db.isEmpty then none
    else some ((db.map (fun r => (r.use_count : ℚ))).sum / total)
  let active := (db.filter (fun r => decide (now - 7 < r.last_used))).length
  let high :=
    (db.filter (fun r => decide ((9 : ℚ) / 10 < r.quality_score))).length
  match total_uses with
  | none => none
  | some tu =>
      some ⟨total, avg_quality, avg_use_count, some tu, active, high,
        (tu : ℚ) / (max total 1 : ℕ)⟩

/-! Section: IntensityAnalyzer (src/translation/patterns.py) -/

/-- The `weights` dict of `IntensityAnalyzer._get_pattern_weight`, in
insertion order. -/
def pattern_weights : List (String × ℚ) :=
  [("kaomoji", 3 / 10), ("emoji_text", 3 / 10), ("tone_markers", 1 / 2),
   ("intensity_chars", 4 / 5), ("emotion_chars", 7 / 10),
   ("physical_desc", 1), ("state_desc", 9 / 10), ("action_desc", 1),
   ("relationship", 4 / 5), ("intimacy", 1), ("metaphors", 9 / 10),
   ("intensifiers", 3 / 5), ("emotions", 7 / 10), ("sensations", 9 / 10),
   ("actions", 4 / 5), ("states", 7 / 10), ("location", 1 / 2),
   ("time", 2 / 5)]

/-- Embeds `IntensityAnalyzer._get_pattern_weight`, with its
`weights.get(pattern_type, 0.5)` default for unknown pattern types. -/
def get_pattern_weight (pattern_type : String) : ℚ :=
  ((pattern_weights.find? (fun w => w.1 == pattern_type)).map Prod.snd).getD
    (1 / 2)

/-- The `context_multipliers` dict of `IntensityAnalyzer`. -/
def context_multipliers : List (String × ℚ) :=
  [("private", 6 / 5), ("group", 4 / 5), ("public", 3 / 5)]

/-- Embeds the `self.context_multipliers.get(context_type, 1.0)` lookup of
`analyze_intensity`. -/
def context_multiplier_for (context_type : String) : ℚ :=
  ((context_multipliers.find? (fun w => w.1 == context_type)).map
    Prod.snd).getD 1

/-- The keys of `IntensityAnalyzer.cn_patterns`, in insertion order. -/
def cn_pattern_types : List String :=
  ["kaomoji", "emoji_text", "internet_slang", "tone_markers",
   "intensity_chars", "emotion_chars", "physical_desc", "state_desc",
   "action_desc", "relationship", "intimacy", "metaphors"]

/-- The keys of `IntensityAnalyzer.en_patterns`, in insertion order. -/
def en_pattern_types : List String :=
  ["intensifiers", "emotions", "sensations", "actions", "states",
   "intimacy", "relationship", "location", "time"]

/-- The raw intensity accumulated by `analyze_intensity`.  The per-pattern
`re.findall` counts are abstracted as `counts`, keyed by pattern name; a
category contributes `matches * weight` (the `if matches > 0` guard in the
loop only skips zero contributions). -/
def base_intensity (counts : String → ℕ) (is_chinese : Bool) : ℚ :=
  (((if is_chinese then cn_pattern_types else en_pattern_types)).map
    (fun pt => (counts pt : ℚ) * get_pattern_weight pt)).sum

/-- The `final_intensity` field computed by `analyze_intensity`:
`min(5, base_intensity * context_multiplier)`. -/
def final_intensity (counts : String → ℕ) (is_chinese : Bool)
    (context_type : String) : ℚ :=
  min 5 (base_intensity counts is_chinese * context_multiplier_for context_type)

/-! Section: SubcultureSlangHandler (src/translation/subculture.py)

The sub-patterns are alternations of literals (plus `\s*?` gaps in the
`meetup` pattern), embedded as token lists with an executable scanner that
mirrors `re.findall`: leftmost scanning, first alternative preference, and
non-overlapping continuation after each match. -/

/-- One token of a compiled sub-pattern: a literal character or a lazy
whitespace gap `\s*?`. -/
inductive RTok where
  | lit (c : Char)
  | wsStar
deriving DecidableEq, Repr

/-- Fuel-indexed matcher for a token sequence at the head of `s`; returns
the rest of the string on success.  The `\s*?` token is lazy: it consumes
as few whitespace characters as allow the remaining tokens to match.  Every
step shortens `ts` or `s`, so `ts.length + s.length` fuel always suffices;
the structural fuel keeps the function kernel-computable. -/
def matchToksF : ℕ → List RTok → List Char → Option (List Char)
  | _, [], s => some s
  | 0, _ :: _, _ => none
  | fuel + 1, RTok.lit _ :: _, [] => none
  | fuel + 1, RTok.lit c :: ts, d :: s =>
      if c = d then matchToksF fuel ts s else none
  | fuel + 1, RTok.wsStar :: ts, s =>
      match matchToksF fuel ts s with
      | some r => some r
      | none =>
          match s with
          | [] => none
          | d :: s' =>
              if d.isWhitespace then matchToksF fuel (RTok.wsStar :: ts) s'
              else none

/-- Match a token sequence at the head of `s` with adequate fuel. -/
def matchToks (ts : List RTok) (s : List Char) : Option (List Char) :=
  matchToksF (ts.length + s.length) ts s

/-- Try the alternatives of an alternation in order at the current position. -/
def matchAlts : List (List RTok) → List Char → Option (List Char)
  | [], _ => none
  | alt :: alts, s =>
      match matchToks alt s with
      | some r => some r
      | none => matchAlts alts s

/-- Scan the text left to right counting non-overlapping matches, with fuel
bounding the number of scan steps (each step consumes at least one
character, so `s.length` fuel is enough). -/
def scanCount (alts : List (List RTok)) : ℕ → List Char → ℕ
  | 0, _ => 0
  | _, [] => 0
  | fuel + 1, c :: rest =>
      match matchAlts alts (c :: rest) with
      | some r => 1 + scanCount alts fuel r
      | none => scanCount alts fuel rest

/-- Embeds `len(re.findall(pattern, text))` for an alternation-of-literals pattern. -/
def findall_count (alts : List (List RTok)) (s : List Char) : ℕ :=
  scanCount alts s.length s

/-- Compile a plain literal alternative. -/
def litToks (w : String) : List RTok :=
  w.data.map RTok.lit

/-- Compile a list of plain literal alternatives. -/
def lits (ws : List String) : List (List RTok) :=
  ws.map litToks

/-- Embeds `SubcultureSlangHandler.subculture_patterns`: category name, then the
named sub-patterns with their compiled alternatives, in source order. -/
def subculture_patterns : List (String × List (String × List (List RTok))) :=
  [("dating",
    [("meetup",
       [litToks "约" ++ [RTok.wsStar] ++ litToks "茶",
        litToks "喝" ++ [RTok.wsStar] ++ litToks "咖啡",
        litToks "吃" ++ [RTok.wsStar] ++ litToks "饭"]),
     ("availability", lits ["有空", "在线上", "在吗", "在不在"]),
     ("interest", lits ["缘分", "眼缘", "聊聊", "了解"]),
     ("personal", lits ["身高", "体重", "颜值", "素质", "经验"])]),
   ("intimate",
    [("hints", lits ["暗示", "明示", "懂的都懂", "xhs"]),
     ("mood", lits ["想你", "想约", "寂寞", "无聊", "空虚"]),
     ("invitation", lits ["来玩", "一起", "陪我", "约吗"]),
     ("status", lits ["单身", "有主", "空窗", "一个人"])]),
   ("service",
    [("type", lits ["推拿", "按摩", "SPA", "轻松"]),
     ("style", lits ["专业", "业余", "兼职", "全职"]),
     ("experience", lits ["老手", "新人", "熟练", "生手"])]),
   ("location",
    [("area", lits ["上门", "到付", "外围", "本地"]),
     ("venue", lits ["住处", "家里", "你家", "我家"]),
     ("transport", lits ["车费", "路费", "打车", "接送"])])]

/-- The `context_intensity` dict of `SubcultureSlangHandler`, in insertion
order. -/
def context_intensity_table : List (String × ℚ) :=
  [("dating", 7 / 10), ("intimate", 1), ("service", 4 / 5),
   ("location", 3 / 5)]

/-- Embeds the `self.context_intensity[category]` lookup of `analyze_text`
(`analyze_text` only looks up the keys present in the dict, so the default
is never reached there). -/
def context_intensity (category : String) : ℚ :=
  ((context_intensity_table.find? (fun w => w.1 == category)).map
    Prod.snd).getD 0

/-- The per-category `category_matches` dict of `analyze_text`, keeping only
the sub-pattern names with at least one match, each with its match count. -/
def category_match_counts (pats : List (String × List (List RTok)))
    (s : List Char) : List (String × ℕ) :=
  pats.filterMap (fun p =>
    let k := findall_count p.2 s
    if k = 0 then none else some (p.1, k))

/-- The `primary_context` selection: `max` by number of matched sub-pattern
names, first maximal category winning, as with Python `max`. -/
def primary_of (matched : List (String × List (String × ℕ))) : Option String :=
  match matched with
  | [] => none
  | c :: rest =>
      some ((rest.foldl
        (fun best cp => if best.2.length < cp.2.length then cp else best) c).1)

/-- The dictionary returned by `SubcultureSlangHandler.analyze_text`
(`matches` keeps only match counts, the only thing the formula reads). -/
structure SubAnalysis where
  categories : List String
  match_counts : List (String × List (String × ℕ))
  intensity : ℚ
  primary_context : Option String
deriving DecidableEq, Repr

/-- The categories for which `analyze_text` records matches (those whose
`category_matches` dict is non-empty), with their match-count dicts, in
iteration order. -/
def matched_categories (text : String) : List (String × List (String × ℕ)) :=
  (subculture_patterns.map
    (fun cp => (cp.1, category_match_counts cp.2 text.data))).filter
      (fun cp => !cp.2.isEmpty)

/-- Embeds `SubcultureSlangHandler.analyze_text`: accumulate
`len(category_matches) * context_intensity[category]` over the matched
categories, then divide by the total number of individual matches when that
total is positive. -/
def analyze_text (text : String) : SubAnalysis :=
  let matched := matched_categories text
  let total : ℕ := (matched.map (fun cp => (cp.2.map Prod.snd).sum)).sum
  let raw : ℚ :=
    (matched.map (fun cp => (cp.2.length : ℚ) * context_intensity cp.1)).sum
  { categories := matched.map Prod.fst
    match_counts := matched
    intensity := if 0 < total then raw / total else raw
    primary_context := primary_of matched }

/-- Total number of individual pattern matches recorded in an analysis. -/
def SubAnalysis.total_matches (a : SubAnalysis) : ℕ :=
  (a.match_counts.map (fun cp => (cp.2.map Prod.snd).sum)).sum

/-- The numerator of the intensity formula: matched sub-pattern names per
category times that category's intensity weight. -/
def SubAnalysis.weighted_names (a : SubAnalysis) : ℚ :=
  (a.match_counts.map (fun cp => (cp.2.length : ℚ) * context_intensity cp.1)).sum

/-! Section: Configuration validator (src/config.py) -/

/-- Embeds `BotConfig.validate_quality`: accepts exactly the values in [0, 1]. -/
def validate_quality (v : ℚ) : Except String ℚ :=
  if 0 ≤ v ∧ v ≤ 1 then Except.ok v
  else Except.error "Quality score must be between 0.0 and 1.0"

/-- The slice of `BotConfig` that `TranslationManager.translate` reads. -/
structure Config where
  TRANSLATION_MIN_QUALITY : ℚ
deriving DecidableEq, Repr

/-! Section: TranslationManager (src/translation/translation_manager.py) -/

/-- The `source` tag of a translation result. -/
inductive Source where
  | cache
  | gpt
  | google
  | google_emergency
  | failed
deriving DecidableEq, Repr

/-- The dictionary returned by `translate` (the claim-relevant fields). -/
structure TransResult where
  translation : String
  src : Source
  quality_score : ℚ
  error : Option String
deriving DecidableEq, Repr

/-- The arguments of the `cache.store_translation` call made by `translate`. -/
structure StoreOp where
  text : String
  translation : String
  source_lang : String
  target_lang : String
  quality_score : ℚ
deriving DecidableEq, Repr

/-- A `translate` run: its result, how many calls each backend received, and
what was stored into the cache. -/
structure TransOutcome where
  result : TransResult
  gpt_calls : ℕ
  google_calls : ℕ
  stored : Option StoreOp
deriving DecidableEq, Repr

/-- The `use_gpt` routing decision of `translate`:
`final_intensity > 3 or subculture_intensity > 0.5 or word_count > 5`. -/
def use_gpt_decision (final_intensity sub_intensity : ℚ)
    (word_count : ℕ) : Bool :=
  decide (3 < final_intensity) || decide ((1 : ℚ) / 2 < sub_intensity) ||
    decide (5 < word_count)

/-- The body of `translate` after the cache check.  The intermediate
`Except` value carries either an uncaught exception together with the calls
made so far (flowing to the outer handler), or the translation, quality,
source tag and call counts after the quality gate. -/
def translate_body (cfg : Config) (gpt google : ℕ → Except String String)
    (final_intensity sub_intensity : ℚ) (word_count : ℕ)
    (text source_lang target_lang : String) : TransOutcome :=
  let primary : Except (String × ℕ × ℕ) (String × ℚ × Source × ℕ × ℕ) :=
    if use_gpt_decision final_intensity sub_intensity word_count then
      match gpt 0 with
      | Except.ok t => Except.ok (t, cfg.TRANSLATION_MIN_QUALITY, Source.gpt, 1, 0)
      | Except.error _ =>
          match google 0 with
          | Except.ok t =>
              Except.ok (t, cfg.TRANSLATION_MIN_QUALITY - 1 / 10, Source.google, 1, 1)
          | Except.error e => Except.error (e, 1, 1)
    else
      match google 0 with
      | Except.ok t =>
          Except.ok (t, cfg.TRANSLATION_MIN_QUALITY - 1 / 10, Source.google, 0, 1)
      | Except.error e => Except.error (e, 0, 1)
  let gated : Except (String × ℕ × ℕ) (String × ℚ × Source × ℕ × ℕ) :=
    match primary with
    | Except.error e => Except.error e
    | Except.ok (t, q, s, gc, glc) =>
        if q < cfg.TRANSLATION_MIN_QUALITY then
          match gpt gc with
          | Except.ok t2 =>
              Except.ok (t2, cfg.TRANSLATION_MIN_QUALITY, Source.gpt, gc + 1, glc)
          | Except.error e => Except.error (e, gc + 1, glc)
        else Except.ok (t, q, s, gc, glc)
  match gated with
  | Except.ok (t, q, s, gc, glc) =>
      ⟨⟨t, s, q, none⟩, gc, glc,
        some ⟨text, t, source_lang, target_lang, q⟩⟩
  | Except.error (e, gc, glc) =>
      match google glc with
      | Except.ok t =>
          ⟨⟨t, Source.google_emergency, cfg.TRANSLATION_MIN_QUALITY - 2 / 10,
            some e⟩, gc, glc + 1, none⟩
      | Except.error _ =>
          ⟨⟨text, Source.failed, 0, some e⟩, gc, glc + 1, none⟩

/-- Embeds `TranslationManager.translate`.  `cached` is the value returned by
`cache.get_cached_translation`; `final_intensity` and `sub_intensity` are the
analyzer outputs for `text`; `word_count` is `len(text.split())`. -/
def translate (cfg : Config) (gpt google : ℕ → Except String String)
    (cached : Option CachedView) (final_intensity sub_intensity : ℚ)
    (word_count : ℕ) (text source_lang target_lang : String) : TransOutcome :=
  match cached with
  | some c =>
      if cfg.TRANSLATION_MIN_QUALITY ≤ c.quality_score then
        ⟨⟨c.translation, Source.cache, c.quality_score, none⟩, 0, 0, none⟩
      else
        translate_body cfg gpt google final_intensity sub_intensity word_count
          text source_lang target_lang
  | none =>
      translate_body cfg gpt google final_intensity sub_intensity word_count
        text source_lang target_lang

/-- The dictionary of `TranslationManager.get_usage_statistics`; it
propagates the failure of `_get_cache_stats`. -/
structure UsageStats where
  total_tokens : ℕ
  total_cost : ℚ
  cache_stats : CacheStats
  translations_count : ℕ
  cache_hit_rate : ℚ
deriving DecidableEq, Repr

/-- Embeds `TranslationManager.get_usage_statistics`. -/
def get_usage_statistics (db : List Row) (now : ℤ) (tokens : ℕ)
    (cost : ℚ) : Option UsageStats :=
  (get_cache_stats db now).map (fun s =>
    ⟨tokens, cost, s, s.total_entries, s.hit_rate⟩)

/-! Section: general helper lemmas -/

/-- Weights looked up by the intensity analyzer are nonnegative. -/
theorem get_pattern_weight_nonneg (pt : String) : 0 ≤ get_pattern_weight pt := by
  unfold get_pattern_weight
  cases h : pattern_weights.find? (fun w => w.1 == pt) with
  | none => norm_num
  | some w =>
      have hw := List.mem_of_find?_eq_some h
      have hall : ∀ x ∈ pattern_weights, 0 ≤ x.2 := by
        intro x hx
        fin_cases hx <;> norm_num
      simpa using hall w hw

/-- Context multipliers are nonnegative. -/
theorem context_multiplier_for_nonneg (ct : String) :
    0 ≤ context_multiplier_for ct := by
  unfold context_multiplier_for
  cases h : context_multipliers.find? (fun w => w.1 == ct) with
  | none => norm_num
  | some w =>
      have hw := List.mem_of_find?_eq_some h
      have hall : ∀ x ∈ context_multipliers, 0 ≤ x.2 := by
        intro x hx
        fin_cases hx <;> norm_num
      simpa using hall w hw

/-- Subculture category weights lie in the unit interval. -/
theorem context_intensity_bounds (c : String) :
    0 ≤ context_intensity c ∧ context_intensity c ≤ 1 := by
  unfold context_intensity
  cases h : context_intensity_table.find? (fun w => w.1 == c) with
  | none => norm_num
  | some w =>
      have hw := List.mem_of_find?_eq_some h
      have hall : ∀ x ∈ context_intensity_table, 0 ≤ x.2 ∧ x.2 ≤ 1 := by
        intro x hx
        fin_cases hx <;> norm_num
      simpa using hall w hw

/-! Section: claim C1 — cache key determinism and collisions -/

/-- C1 (amended): the cache key is pure and deterministic, and it is a
function of the bare concatenation `text ++ source_lang ++ target_lang`
alone: two triples with the same concatenation always receive the same key,
and under an injective hexdigest two triples collide exactly when their
concatenations coincide. -/
theorem C1_key_determined_by_concatenation (md5_hexdigest : String → String)
    (t1 s1 g1 t2 s2 g2 : String) (h : t1 ++ s1 ++ g1 = t2 ++ s2 ++ g2) :
    get_text_hash md5_hexdigest t1 s1 g1 = get_text_hash md5_hexdigest t2 s2 g2 ∧
    (Function.Injective md5_hexdigest →
      ∀ u1 v1 w1 u2 v2 w2 : String,
        get_text_hash md5_hexdigest u1 v1 w1 = get_text_hash md5_hexdigest u2 v2 w2 →
        u1 ++ v1 ++ w1 = u2 ++ v2 ++ w2) :=
  ⟨congrArg md5_hexdigest h, fun hinj _ _ _ _ _ _ hk => hinj hk⟩

/-- C1 witness: the concrete collision pair of the counterexample indeed has
equal concatenations, hence equal keys. -/
theorem C1_key_witness :
    get_text_hash id "ab" "c" "d" = get_text_hash id "a" "bc" "d" :=
  (C1_key_determined_by_concatenation id "ab" "c" "d" "a" "bc" "d" (by decide)).1

/-- C1 counterexample: the distinct triples ("ab","c","d") and ("a","bc","d")
receive the same cache key even for an injective (perfectly
collision-resistant) hexdigest, because the three fields are concatenated
without a separator before hashing. -/
theorem C1_collision_counterexample :
    get_text_hash id "ab" "c" "d" = get_text_hash id "a" "bc" "d" ∧
    Function.Injective (id : String → String) ∧
    ("ab", "c", "d") ≠ (("a", "bc", "d") : String × String × String) :=
  ⟨by decide, fun _ _ hab => hab, by decide⟩

/-! Section: claim C4 — a live high-quality cache hit is terminal -/

/-- C4: when the cache lookup returns a live entry whose stored quality
reaches the configured minimum, `translate` returns that entry tagged
`source=cache` with the stored quality, makes no Google call and no GPT
call, and stores nothing. -/
theorem C4_cache_hit_skips_backends (cfg : Config)
    (gpt google : ℕ → Except String String) (c : CachedView) (fi si : ℚ)
    (wc : ℕ) (text sl tl : String)
    (h : cfg.TRANSLATION_MIN_QUALITY ≤ c.quality_score) :
    translate cfg gpt google (some c) fi si wc text sl tl =
      ⟨⟨c.translation, Source.cache, c.quality_score, none⟩, 0, 0, none⟩ := by
  simp [translate, h]

/-- C4 witness: a concrete hit at the default threshold. -/
theorem C4_cache_hit_witness :
    translate ⟨9 / 10⟩ (fun _ => Except.error "down")
        (fun _ => Except.error "down") (some ⟨"T", 9 / 10, 1, none⟩) 0 0 0
        "t" "zh" "en" =
      ⟨⟨"T", Source.cache, 9 / 10, none⟩, 0, 0, none⟩ :=
  C4_cache_hit_skips_backends ⟨9 / 10⟩ _ _ ⟨"T", 9 / 10, 1, none⟩ 0 0 0 "t"
    "zh" "en" (by norm_num)

/-! Section: claim C6 — cleanup implements the dual eviction policy -/

/-- C6: `cleanup` keeps exactly the rows that are neither stale
(`last_used` older than `max_days`) nor single-use older than 7 days; in
particular a row used once, created 10 days ago and never re-accessed, is
removed by `cleanup` with `max_days = 30` although its `last_used` is well
inside the 30-day window. -/
theorem C6_cleanup_dual_eviction (db : List Row) (now max_days : ℤ) (r : Row) :
    (r ∈ cleanup db now max_days ↔
      r ∈ db ∧ ¬(r.last_used < now - max_days ∨
        (r.use_count = 1 ∧ r.created_at < now - 7))) ∧
    (r.use_count = 1 → r.created_at = now - 10 → r.last_used = now - 10 →
      r ∉ cleanup db now 30) := by
  constructor
  · simp only [cleanup, List.mem_filter, Bool.not_eq_true',
      decide_eq_false_iff_not]
  · intro h1 h2 h3 hmem
    simp only [cleanup, List.mem_filter] at hmem
    rcases hmem with ⟨-, hkeep⟩
    simp only [Bool.not_eq_true', decide_eq_false_iff_not] at hkeep
    exact hkeep (Or.inr ⟨h1, by omega⟩)

/-- C6 witness: the concrete single-use 10-day-old row is evicted. -/
theorem C6_cleanup_witness :
    (⟨"h", "a", "b", "zh", "en", 1, 1, 0, 0, none⟩ : Row) ∉
      cleanup [⟨"h", "a", "b", "zh", "en", 1, 1, 0, 0, none⟩] 10 30 :=
  (C6_cleanup_dual_eviction [⟨"h", "a", "b", "zh", "en", 1, 1, 0, 0, none⟩]
      10 30 ⟨"h", "a", "b", "zh", "en", 1, 1, 0, 0, none⟩).2
    rfl (by decide) (by decide)

/-! Section: claim C9 — intensity is monotone in the match counts -/

/-- C9: for a fixed context type and script family, raising any per-category
match count can only raise (or keep) the final clamped intensity: every
pattern weight is nonnegative, the context multiplier is nonnegative, and
the 5.0 clamp is monotone. -/
theorem C9_final_intensity_monotone (is_chinese : Bool)
    (counts counts2 : String → ℕ) (context_type : String)
    (h : ∀ pt, counts pt ≤ counts2 pt) :
    final_intensity counts is_chinese context_type ≤
      final_intensity counts2 is_chinese context_type := by
  have hbase : base_intensity counts is_chinese ≤
      base_intensity counts2 is_chinese := by
    unfold base_intensity
    apply List.sum_le_sum
    intro pt _
    exact mul_le_mul_of_nonneg_right (by exact_mod_cast h pt)
      (get_pattern_weight_nonneg pt)
  exact min_le_min le_rfl
    (mul_le_mul_of_nonneg_right hbase (context_multiplier_for_nonneg context_type))

/-- C9 witness: one extra match everywhere does not lower the intensity. -/
theorem C9_monotone_witness :
    final_intensity (fun _ => 0) true "group" ≤
      final_intensity (fun _ => 1) true "group" :=
  C9_final_intensity_monotone true (fun _ => 0) (fun _ => 1) "group"
    (fun _ => Nat.zero_le 1)

/-! Section: claim C10 — cache statistics fail on an empty cache -/

/-- C10: on an empty cache `SUM(use_count)` is NULL, so `_get_cache_stats`
(and with it `get_usage_statistics`) fails instead of returning zeroed
statistics; on a non-empty cache it succeeds and `hit_rate` is the total use
count divided by the number of entries. -/
theorem C10_stats_undefined_on_empty_cache (db : List Row) (now : ℤ)
    (tokens : ℕ) (cost : ℚ) (hne : db ≠ []) :
    get_cache_stats [] now = none ∧
    get_usage_statistics [] now tokens cost = none ∧
    ∃ s, get_cache_stats db now = some s ∧
      s.total_entries = db.length ∧
      s.hit_rate = ((db.map Row.use_count).sum : ℚ) / db.length := by
  refine ⟨rfl, rfl, ?_⟩
  cases db with
  | nil => exact absurd rfl hne
  | cons a l =>
      refine ⟨_, rfl, rfl, ?_⟩
      have hmax : max (a :: l).length 1 = (a :: l).length :=
        Nat.max_eq_left (by simp)
      simp [get_cache_stats, hmax]

/-- C10 witness: the failure on the empty cache and a success on a
one-element cache. -/
theorem C10_stats_witness :
    get_usage_statistics [] 0 0 0 = none ∧
    get_cache_stats [⟨"h", "a", "b", "zh", "en", 1, 3, 0, 0, none⟩] 0 ≠
      none := by
  obtain ⟨-, h2, s, hs, -, -⟩ :=
    C10_stats_undefined_on_empty_cache
      [⟨"h", "a", "b", "zh", "en", 1, 3, 0, 0, none⟩] 0 0 0 (by simp)
  exact ⟨h2, by simp [hs]⟩

/-! Section: claim C3 — total backend failure degrades to echoing input -/

/-- C3: when every GPT call and every Google call raises (and the cache does
not serve a live high-quality hit, so backend attempts actually happen),
`translate` returns the original text with `source=failed`, quality `0.0`
and an error detail, stores nothing, and — being a total function of its
oracles in this model — does not raise. -/
theorem C3_total_failure_returns_failed (cfg : Config)
    (gpt google : ℕ → Except String String) (cached : Option CachedView)
    (fi si : ℚ) (wc : ℕ) (text sl tl : String)
    (hg : ∀ n, ∃ e, gpt n = Except.error e)
    (hgl : ∀ n, ∃ e, google n = Except.error e)
    (hc : ∀ c, cached = some c →
      c.quality_score < cfg.TRANSLATION_MIN_QUALITY) :
    (translate cfg gpt google cached fi si wc text sl tl).result.translation =
      text ∧
    (translate cfg gpt google cached fi si wc text sl tl).result.src =
      Source.failed ∧
    (translate cfg gpt google cached fi si wc text sl tl).result.quality_score =
      0 ∧
    (translate cfg gpt google cached fi si wc text sl tl).result.error.isSome =
      true ∧
    (translate cfg gpt google cached fi si wc text sl tl).stored = none := by
  obtain ⟨e0, hge0⟩ := hg 0
  obtain ⟨f0, hgf0⟩ := hgl 0
  obtain ⟨f1, hgf1⟩ := hgl 1
  have htr : translate cfg gpt google cached fi si wc text sl tl =
      translate_body cfg gpt google fi si wc text sl tl := by
    cases cached with
    | none => rfl
    | some c => simp [translate, not_le.mpr (hc c rfl)]
  rw [htr]
  cases hu : use_gpt_decision fi si wc <;>
    simp [translate_body, hu, hge0, hgf0, hgf1]

/-- C3 witness: a concrete run with both backends always raising. -/
theorem C3_total_failure_witness :
    (translate ⟨9 / 10⟩ (fun _ => Except.error "down")
        (fun _ => Except.error "down") none 0 0 0 "hello" "zh"
        "en").result.translation = "hello" ∧
    (translate ⟨9 / 10⟩ (fun _ => Except.error "down")
        (fun _ => Except.error "down") none 0 0 0 "hello" "zh"
        "en").result.src = Source.failed ∧
    (translate ⟨9 / 10⟩ (fun _ => Except.error "down")
        (fun _ => Except.error "down") none 0 0 0 "hello" "zh"
        "en").result.quality_score = 0 ∧
    (translate ⟨9 / 10⟩ (fun _ => Except.error "down")
        (fun _ => Except.error "down") none 0 0 0 "hello" "zh"
        "en").result.error.isSome = true ∧
    (translate ⟨9 / 10⟩ (fun _ => Except.error "down")
        (fun _ => Except.error "down") none 0 0 0 "hello" "zh"
        "en").stored = none :=
  C3_total_failure_returns_failed ⟨9 / 10⟩ _ _ none 0 0 0 "hello" "zh" "en"
    (fun _ => ⟨"down", rfl⟩) (fun _ => ⟨"down", rfl⟩) (fun _ h => nomatch h)

/-! Section: claim C2 — the quality-gate escalation -/

/-- C2 (amended): the escalation gate fires exactly when the step-4 quality
is below the configured minimum, which happens exactly when the result so
far came from the Google backend — both when Google was the primary fast
path and when it was the fallback after a failed GPT primary.  The gate
invokes GPT exactly once more (never looping, so at most two GPT calls in
total), and a successful escalation returns `source=gpt` with quality equal
to the configured minimum; consequently a plain `source=google` result is
never returned.  The claim's exception for a failed model-backend primary
does not hold: that path also escalates (fourth conjunct). -/
theorem C2_escalation_exactly_on_low_quality (cfg : Config)
    (gpt google : ℕ → Except String String) (fi si : ℚ) (wc : ℕ)
    (text sl tl : String) (o : TransOutcome)
    (ho : o = translate cfg gpt google none fi si wc text sl tl) :
    o.gpt_calls ≤ 2 ∧
    o.result.src ≠ Source.google ∧
    (use_gpt_decision fi si wc = false →
      ∀ g t2, google 0 = Except.ok g → gpt 0 = Except.ok t2 →
        o.result.src = Source.gpt ∧
        o.result.quality_score = cfg.TRANSLATION_MIN_QUALITY ∧
        o.gpt_calls = 1 ∧ o.google_calls = 1 ∧
        o.stored = some ⟨text, t2, sl, tl, cfg.TRANSLATION_MIN_QUALITY⟩) ∧
    (use_gpt_decision fi si wc = true →
      ∀ e g, gpt 0 = Except.error e → google 0 = Except.ok g →
        o.gpt_calls = 2) := by
  subst ho
  have hlt : cfg.TRANSLATION_MIN_QUALITY - 1 / 10 <
      cfg.TRANSLATION_MIN_QUALITY := by linarith
  have hnlt : ¬(cfg.TRANSLATION_MIN_QUALITY <
      cfg.TRANSLATION_MIN_QUALITY) := lt_irrefl _
  have htr : translate cfg gpt google none fi si wc text sl tl =
      translate_body cfg gpt google fi si wc text sl tl := rfl
  rw [htr]
  cases hu : use_gpt_decision fi si wc with
  | false =>
      cases hgl0 : google 0 with
      | error f =>
          cases hgl1 : google 1 <;>
            simp [translate_body, hu, hgl0, hgl1]
      | ok g =>
          cases hg0 : gpt 0 with
          | error e =>
              cases hgl1 : google 1 <;>
                simp [translate_body, hu, hgl0, hg0, hgl1, hlt]
          | ok t =>
              simp [translate_body, hu, hgl0, hg0, hlt]
  | true =>
      cases hg0 : gpt 0 with
      | ok t =>
          simp [translate_body, hu, hg0, hnlt]
      | error e =>
          cases hgl0 : google 0 with
          | error f =>
              cases hgl1 : google 1 <;>
                simp [translate_body, hu, hg0, hgl0, hgl1]
          | ok g =>
              cases hg1 : gpt 1 with
              | ok t2 =>
                  simp [translate_body, hu, hg0, hgl0, hg1, hlt]
              | error e2 =>
                  cases hgl1 : google 1 <;>
                    simp [translate_body, hu, hg0, hgl0, hg1, hgl1, hlt]

/-- C2 witness: a concrete low-quality fast-backend primary escalates to one
GPT call and returns `source=gpt` at the configured minimum quality. -/
theorem C2_escalation_witness :
    (translate ⟨9 / 10⟩ (fun _ => Except.ok "T") (fun _ => Except.ok "G")
        none 0 0 0 "x" "zh" "en").result.src = Source.gpt ∧
    (translate ⟨9 / 10⟩ (fun _ => Except.ok "T") (fun _ => Except.ok "G")
        none 0 0 0 "x" "zh" "en").result.quality_score = 9 / 10 ∧
    (translate ⟨9 / 10⟩ (fun _ => Except.ok "T") (fun _ => Except.ok "G")
        none 0 0 0 "x" "zh" "en").gpt_calls = 1 ∧
    (translate ⟨9 / 10⟩ (fun _ => Except.ok "T") (fun _ => Except.ok "G")
        none 0 0 0 "x" "zh" "en").google_calls = 1 ∧
    (translate ⟨9 / 10⟩ (fun _ => Except.ok "T") (fun _ => Except.ok "G")
        none 0 0 0 "x" "zh" "en").stored =
      some ⟨"x", "T", "zh", "en", 9 / 10⟩ := by
  have huse : use_gpt_decision 0 0 0 = false := by
    simp only [use_gpt_decision, Bool.or_eq_false_iff,
      decide_eq_false_iff_not]
    norm_num
  exact (C2_escalation_exactly_on_low_quality ⟨9 / 10⟩ (fun _ => Except.ok "T")
    (fun _ => Except.ok "G") 0 0 0 "x" "zh" "en" _ rfl).2.2.1 huse "G" "T" rfl
    rfl

/-- C2 counterexample: with a failed GPT primary followed by a successful
Google fallback, the code escalates to GPT again — two GPT calls and a
`source=gpt` result — contradicting the claim that no escalation occurs
when the primary attempt was the model backend. -/
theorem C2_escalation_counterexample :
    (translate ⟨9 / 10⟩
        (fun n => if n = 0 then Except.error "gpt down" else Except.ok "T2")
        (fun _ => Except.ok "G") none 0 0 6 "hello" "en" "zh").gpt_calls = 2 ∧
    (translate ⟨9 / 10⟩
        (fun n => if n = 0 then Except.error "gpt down" else Except.ok "T2")
        (fun _ => Except.ok "G") none 0 0 6 "hello" "en" "zh").result.src =
      Source.gpt := by
  constructor <;> norm_num [translate, translate_body, use_gpt_decision]

/-! Section: claim C7 — range of the quality scores -/

/-- C7 (amended): with any validator-accepted minimum quality (in [0,1]) and
a cache whose stored scores are in [0,1], every quality score `translate`
stores is exactly the configured minimum (hence in [0,1]); the score
returned to the caller is in [0,1] whenever the configured minimum is at
least 0.2, the emergency-fallback path being the only one that can go below
zero (it returns minimum − 0.2). -/
theorem C7_quality_score_range (cfg : Config)
    (gpt google : ℕ → Except String String) (cached : Option CachedView)
    (fi si : ℚ) (wc : ℕ) (text sl tl : String)
    (h0 : 0 ≤ cfg.TRANSLATION_MIN_QUALITY)
    (h1 : cfg.TRANSLATION_MIN_QUALITY ≤ 1)
    (hc : ∀ c, cached = some c →
      0 ≤ c.quality_score ∧ c.quality_score ≤ 1) :
    (∀ s, (translate cfg gpt google cached fi si wc text sl tl).stored =
        some s → s.quality_score = cfg.TRANSLATION_MIN_QUALITY) ∧
    ((1 : ℚ) / 5 ≤ cfg.TRANSLATION_MIN_QUALITY →
      0 ≤ (translate cfg gpt google cached fi si wc text sl
          tl).result.quality_score ∧
      (translate cfg gpt google cached fi si wc text sl
          tl).result.quality_score ≤ 1) := by
  have hlt : cfg.TRANSLATION_MIN_QUALITY - 1 / 10 <
      cfg.TRANSLATION_MIN_QUALITY := by linarith
  have hnlt : ¬(cfg.TRANSLATION_MIN_QUALITY <
      cfg.TRANSLATION_MIN_QUALITY) := lt_irrefl _
  have hbody :
      (∀ s, (translate_body cfg gpt google fi si wc text sl tl).stored =
          some s → s.quality_score = cfg.TRANSLATION_MIN_QUALITY) ∧
      ((1 : ℚ) / 5 ≤ cfg.TRANSLATION_MIN_QUALITY →
        0 ≤ (translate_body cfg gpt google fi si wc text sl
            tl).result.quality_score ∧
        (translate_body cfg gpt google fi si wc text sl
            tl).result.quality_score ≤ 1) := by
    cases hu : use_gpt_decision fi si wc with
    | false =>
        cases hgl0 : google 0 with
        | error f =>
            cases hgl1 : google 1 <;>
              simp [translate_body, hu, hgl0, hgl1] <;>
              intro h5 <;> constructor <;> linarith
        | ok g =>
            cases hg0 : gpt 0 with
            | error e =>
                cases hgl1 : google 1 <;>
                  simp [translate_body, hu, hgl0, hg0, hgl1, hlt] <;>
                  intro h5 <;> constructor <;> linarith
            | ok t =>
                simp [translate_body, hu, hgl0, hg0, hlt]
                intro h5
                constructor <;> linarith
    | true =>
        cases hg0 : gpt 0 with
        | ok t =>
            simp [translate_body, hu, hg0, hnlt]
            intro h5
            constructor <;> linarith
        | error e =>
            cases hgl0 : google 0 with
            | error f =>
                cases hgl1 : google 1 <;>
                  simp [translate_body, hu, hg0, hgl0, hgl1] <;>
                  intro h5 <;> constructor <;> linarith
            | ok g =>
                cases hg1 : gpt 1 with
                | ok t2 =>
                    simp [translate_body, hu, hg0, hgl0, hg1, hlt]
                    intro h5
                    constructor <;> linarith
                | error e2 =>
                    cases hgl1 : google 1 <;>
                      simp [translate_body, hu, hg0, hgl0, hg1, hgl1, hlt] <;>
                      intro h5 <;> constructor <;> linarith
  cases cached with
  | none => exact hbody
  | some c =>
      by_cases hq : cfg.TRANSLATION_MIN_QUALITY ≤ c.quality_score
      · obtain ⟨hc0, hc1⟩ := hc c rfl
        constructor
        · intro s hs
          simp [translate, hq] at hs
        · intro h5
          simp [translate, hq]
          exact ⟨hc0, hc1⟩
      · simpa [translate, hq] using hbody

/-- C7 witness: a concrete run at the default threshold stays in range. -/
theorem C7_quality_witness :
    0 ≤ (translate ⟨9 / 10⟩ (fun _ => Except.ok "T") (fun _ => Except.ok "G")
        none 0 0 0 "x" "zh" "en").result.quality_score ∧
    (translate ⟨9 / 10⟩ (fun _ => Except.ok "T") (fun _ => Except.ok "G")
        none 0 0 0 "x" "zh" "en").result.quality_score ≤ 1 :=
  (C7_quality_score_range ⟨9 / 10⟩ (fun _ => Except.ok "T")
    (fun _ => Except.ok "G") none 0 0 0 "x" "zh" "en" (by norm_num)
    (by norm_num) (fun _ h => nomatch h)).2 (by norm_num)

/-- C7 counterexample: the validator accepts a minimum quality of 0.1, and
the emergency-fallback path then returns quality 0.1 − 0.2 = −0.1, outside
[0, 1]. -/
theorem C7_negative_quality_counterexample :
    validate_quality (1 / 10) = Except.ok (1 / 10) ∧
    (translate ⟨1 / 10⟩ (fun _ => Except.error "gpt down")
        (fun n => if n = 0 then Except.ok "G" else Except.ok "E") none 0 0 0
        "hi" "en" "zh").result.quality_score < 0 := by
  constructor
  · norm_num [validate_quality]
  · norm_num [translate, translate_body, use_gpt_decision]

/-! Section: claim C5 — retention window, hit effects, store-then-get -/

/-- Finding helper: if a member satisfies the predicate and is the only
element that can satisfy it, `find?` returns it. -/
theorem find_eq_of_unique {α : Type} {p : α → Bool} {l : List α} {r : α}
    (hr : r ∈ l) (hp : p r = true) (huniq : ∀ x ∈ l, p x = true → x = r) :
    l.find? p = some r := by
  induction l with
  | nil => cases hr
  | cons a l ih =>
      by_cases ha : p a = true
      · have : a = r := huniq a (List.mem_cons_self a l) ha
        subst this
        simp [List.find?, ha]
      · have ha' : p a = false := by
          cases h : p a
          · rfl
          · exact absurd h ha
        rw [List.find?, ha']
        rcases List.mem_cons.mp hr with h | h
        · exact absurd (h ▸ hp) ha
        · exact ih h (fun x hx => huniq x (List.mem_cons_of_mem a hx))

/-- Finding helper: `find?` skips a prefix on which the predicate is false. -/
theorem find_append_of_false {α : Type} {p : α → Bool} {l1 : List α}
    (l2 : List α) (h : ∀ x ∈ l1, p x = false) :
    (l1 ++ l2).find? p = l2.find? p := by
  induction l1 with
  | nil => rfl
  | cons a l ih =>
      rw [List.cons_append, List.find?, h a (List.mem_cons_self a l)]
      exact ih (fun x hx => h x (List.mem_cons_of_mem a hx))

/-- C5: (1) if every row under the requested key has `last_used` at least 30
days old, the lookup is a miss even though the row is physically present;
(2) on a live hit the returned view carries the stored translation, quality
and pre-increment use count, while the stored row is updated to
`use_count + 1` and `last_used = now`, all other keys untouched; (3) storing
and immediately retrieving yields a hit showing the stored translation and
quality. -/
theorem C5_retention_window_and_hit_update (md5_hexdigest : String → String)
    (db : List Row) (now : ℤ) (text sl tl tr : String) (q : ℚ)
    (md : Option String) (r : Row) :
    ((∀ x ∈ db, x.text_hash = get_text_hash md5_hexdigest text sl tl →
        x.last_used ≤ now - 30) →
      (get_cached_translation md5_hexdigest db now text sl tl).1 = none) ∧
    (r ∈ db → r.text_hash = get_text_hash md5_hexdigest text sl tl →
      now - 30 < r.last_used →
      (∀ x ∈ db, x.text_hash = get_text_hash md5_hexdigest text sl tl →
        x = r) →
      (get_cached_translation md5_hexdigest db now text sl tl).1 =
          some ⟨r.translated_text, r.quality_score, r.use_count, r.metadata⟩ ∧
        { r with use_count := r.use_count + 1, last_used := now } ∈
          (get_cached_translation md5_hexdigest db now text sl tl).2 ∧
        ∀ x ∈ db, x.text_hash ≠ get_text_hash md5_hexdigest text sl tl →
          x ∈ (get_cached_translation md5_hexdigest db now text sl tl).2) ∧
    (get_cached_translation md5_hexdigest
        (store_translation md5_hexdigest db now text tr sl tl q md) now text
        sl tl).1 = some ⟨tr, q, 1, md⟩ := by
  refine ⟨?_, ?_, ?_⟩
  · intro hstale
    have hnone : db.find? (fun x =>
        x.text_hash == get_text_hash md5_hexdigest text sl tl &&
          decide (now - 30 < x.last_used)) = none := by
      rw [List.find?_eq_none]
      intro x hx
      by_cases hh : x.text_hash = get_text_hash md5_hexdigest text sl tl
      · have := hstale x hx hh
        simp [hh]
        omega
      · simp [hh]
    simp [get_cached_translation, hnone]
  · intro hmem hhash hfresh huniq
    have hfind : db.find? (fun x =>
        x.text_hash == get_text_hash md5_hexdigest text sl tl &&
          decide (now - 30 < x.last_used)) = some r := by
      apply find_eq_of_unique hmem
      · simp [hhash, hfresh]
      · intro x hx hpx
        simp only [Bool.and_eq_true, beq_iff_eq, decide_eq_true_eq] at hpx
        exact huniq x hx hpx.1
    refine ⟨by simp [get_cached_translation, hfind], ?_, ?_⟩
    · simp only [get_cached_translation, hfind]
      exact List.mem_map.mpr ⟨r, hmem, by simp [hhash]⟩
    · intro x hx hxh
      simp only [get_cached_translation, hfind]
      refine List.mem_map.mpr ⟨x, hx, ?_⟩
      simp [hxh]
  · have hfilter : ∀ x ∈ db.filter (fun x =>
        x.text_hash != get_text_hash md5_hexdigest text sl tl),
        (x.text_hash == get_text_hash md5_hexdigest text sl tl &&
          decide (now - 30 < x.last_used)) = false := by
      intro x hx
      have := List.of_mem_filter hx
      simp only [bne_iff_ne, ne_eq] at this
      simp [this]
    simp only [get_cached_translation, store_translation]
    rw [find_append_of_false _ hfilter]
    simp [List.find?]

/-- C5 witness: a concrete live hit returns the stored data with the
pre-increment use count, and the stored row is bumped to `use_count = 4`
and `last_used = now`. -/
theorem C5_hit_witness :
    (get_cached_translation id
        [⟨"hizhen", "hi", "hello", "zh", "en", 1, 3, 5, 0, none⟩] 10 "hi"
        "zh" "en").1 = some ⟨"hello", 1, 3, none⟩ ∧
    (⟨"hizhen", "hi", "hello", "zh", "en", 1, 4, 10, 0, none⟩ : Row) ∈
      (get_cached_translation id
        [⟨"hizhen", "hi", "hello", "zh", "en", 1, 3, 5, 0, none⟩] 10 "hi"
        "zh" "en").2 := by
  have h := (C5_retention_window_and_hit_update id
      [⟨"hizhen", "hi", "hello", "zh", "en", 1, 3, 5, 0, none⟩] 10 "hi" "zh"
      "en" "x" 0 none
      ⟨"hizhen", "hi", "hello", "zh", "en", 1, 3, 5, 0, none⟩).2.1
    (List.mem_singleton.mpr rfl) (by decide) (by decide)
    (fun x hx _ => List.mem_singleton.mp hx)
  exact ⟨h.1, h.2.1⟩

/-! Section: claim C8 — the aggregate subculture intensity -/

/-- Every count recorded by `category_match_counts` is at least 1 (only
sub-patterns with a non-empty match list are kept). -/
theorem category_match_counts_pos (pats : List (String × List (List RTok)))
    (s : List Char) : ∀ p ∈ category_match_counts pats s, 1 ≤ p.2 := by
  intro p hp
  simp only [category_match_counts, List.mem_filterMap] at hp
  obtain ⟨a, -, ha⟩ := hp
  by_cases hk : findall_count a.2 s = 0
  · simp [hk] at ha
  · rw [if_neg hk] at ha
    injection ha with h
    subst h
    show 1 ≤ findall_count a.2 s
    omega

/-- A list whose entries all carry counts at least 1 is no longer than the
sum of its counts. -/
theorem length_le_sum_of_pos (l : List (String × ℕ))
    (h : ∀ p ∈ l, 1 ≤ p.2) : l.length ≤ (l.map Prod.snd).sum := by
  induction l with
  | nil => simp
  | cons a l ih =>
      simp only [List.length_cons, List.map_cons, List.sum_cons]
      have h1 := h a (List.mem_cons_self a l)
      have h2 := ih (fun p hp => h p (List.mem_cons_of_mem a hp))
      omega

/-- The numerator of the intensity formula is nonnegative and bounded by the
total match count, because each matched sub-pattern name accounts for at
least one match and every category weight is at most 1. -/
theorem weighted_sum_bounds (matched : List (String × List (String × ℕ)))
    (hcnt : ∀ cp ∈ matched, ∀ p ∈ cp.2, 1 ≤ p.2) :
    0 ≤ (matched.map
        (fun cp => (cp.2.length : ℚ) * context_intensity cp.1)).sum ∧
    (matched.map (fun cp => (cp.2.length : ℚ) * context_intensity cp.1)).sum ≤
      (((matched.map (fun cp => (cp.2.map Prod.snd).sum)).sum : ℕ) : ℚ) := by
  induction matched with
  | nil => simp
  | cons a l ih =>
      obtain ⟨ih0, ih1⟩ := ih (fun cp hc => hcnt cp (List.mem_cons_of_mem a hc))
      obtain ⟨hw0, hw1⟩ := context_intensity_bounds a.1
      have hlen := length_le_sum_of_pos a.2 (hcnt a (List.mem_cons_self a l))
      have hterm0 : (0 : ℚ) ≤ (a.2.length : ℚ) * context_intensity a.1 :=
        mul_nonneg (by positivity) hw0
      have hterm1 : (a.2.length : ℚ) * context_intensity a.1 ≤
          ((a.2.map Prod.snd).sum : ℚ) := by
        calc (a.2.length : ℚ) * context_intensity a.1
            ≤ (a.2.length : ℚ) * 1 :=
              mul_le_mul_of_nonneg_left hw1 (by positivity)
          _ = (a.2.length : ℚ) := mul_one _
          _ ≤ ((a.2.map Prod.snd).sum : ℚ) := by exact_mod_cast hlen
      constructor
      · simp only [List.map_cons, List.sum_cons]
        linarith
      · simp only [List.map_cons, List.sum_cons, Nat.cast_add]
        linarith

/-- Each entry of the matched-category list has a non-empty count dict whose
counts are all at least 1. -/
theorem matched_categories_spec (text : String) :
    ∀ cp ∈ matched_categories text, cp.2 ≠ [] ∧ ∀ p ∈ cp.2, 1 ≤ p.2 := by
  intro cp hcp
  simp only [matched_categories, List.mem_filter] at hcp
  obtain ⟨hmem, hne⟩ := hcp
  simp only [List.mem_map] at hmem
  obtain ⟨orig, -, rfl⟩ := hmem
  constructor
  · intro h
    rw [h] at hne
    simp at hne
  · intro p hp
    exact category_match_counts_pos orig.2 text.data p hp

/-- If the total match count vanishes, no category matched at all. -/
theorem matched_categories_total_zero (text : String)
    (h0 : ((matched_categories text).map
      (fun cp => (cp.2.map Prod.snd).sum)).sum = 0) :
    matched_categories text = [] := by
  cases hml : matched_categories text with
  | nil => rfl
  | cons a l =>
      exfalso
      have hspec := matched_categories_spec text
      rw [hml] at h0 hspec
      have ha := hspec a (List.mem_cons_self a l)
      have hlen := length_le_sum_of_pos a.2 ha.2
      have hlp : a.2.length ≠ 0 := by
        intro h
        exact ha.1 (List.length_eq_zero.mp h)
      simp only [List.map_cons, List.sum_cons] at h0
      omega

/-- C8 (amended): `analyze_text` computes the aggregate intensity as
Σ(matched sub-pattern names per category × category weight) divided by the
total number of individual matches (0 when nothing matched) — which is at
most, but not in general equal to, a weighted average of the matched
categories' weights — and the result always lies in [0, 1]. -/
theorem C8_intensity_weighted_and_bounded (text : String) :
    0 ≤ (analyze_text text).intensity ∧
    (analyze_text text).intensity ≤ 1 ∧
    ((analyze_text text).total_matches = 0 →
      (analyze_text text).intensity = 0) ∧
    (0 < (analyze_text text).total_matches →
      (analyze_text text).intensity =
        (analyze_text text).weighted_names /
          ((analyze_text text).total_matches : ℚ)) := by
  have hint : (analyze_text text).intensity =
      if 0 < (analyze_text text).total_matches
      then (analyze_text text).weighted_names /
        ((analyze_text text).total_matches : ℚ)
      else (analyze_text text).weighted_names := rfl
  have hW : (analyze_text text).weighted_names =
      ((matched_categories text).map
        (fun cp => (cp.2.length : ℚ) * context_intensity cp.1)).sum := rfl
  have hT : (analyze_text text).total_matches =
      ((matched_categories text).map
        (fun cp => (cp.2.map Prod.snd).sum)).sum := rfl
  have hspec := matched_categories_spec text
  have hbounds := weighted_sum_bounds (matched_categories text)
    (fun cp hcp => (hspec cp hcp).2)
  by_cases ht : 0 < (analyze_text text).total_matches
  · have hTpos : (0 : ℚ) < ((analyze_text text).total_matches : ℚ) := by
      exact_mod_cast ht
    rw [hint, if_pos ht]
    refine ⟨div_nonneg ?_ hTpos.le, ?_, fun h => absurd h (by omega),
      fun _ => rfl⟩
    · rw [hW]
      exact hbounds.1
    · rw [div_le_one hTpos, hW, hT]
      exact hbounds.2
  · have ht0 : (analyze_text text).total_matches = 0 := by omega
    have hmz : matched_categories text = [] :=
      matched_categories_total_zero text (by rw [← hT]; exact ht0)
    have hW0 : (analyze_text text).weighted_names = 0 := by
      rw [hW, hmz]
      simp
    rw [hint, if_neg ht, hW0]
    exact ⟨le_refl 0, by norm_num, fun _ => rfl, fun h => absurd h ht⟩

/-- C8 witness: the bounds instantiated at a concrete text. -/
theorem C8_bounds_witness :
    0 ≤ (analyze_text "想你想你").intensity ∧
    (analyze_text "想你想你").intensity ≤ 1 :=
  ⟨(C8_intensity_weighted_and_bounded "想你想你").1,
   (C8_intensity_weighted_and_bounded "想你想你").2.1⟩

/-- C8 counterexample: on the text 想你想你, the single matched category
`intimate` (weight 1) matches one sub-pattern name twice, so the computed
intensity is (1 × 1) / 2 = 0.5, while any weighted average of the matched
categories' intensity weights — and the claimed formula with the category's
match count 2 in the numerator, (2 × 1) / 2 — equals 1. -/
theorem C8_weighted_average_counterexample :
    (analyze_text "想你想你").match_counts = [("intimate", [("mood", 2)])] ∧
    context_intensity "intimate" = 1 ∧
    (analyze_text "想你想你").intensity = 1 / 2 ∧
    ((2 : ℚ) * context_intensity "intimate") / 2 = 1 := by
  have hci : context_intensity "intimate" = 1 := rfl
  refine ⟨rfl, hci, ?_, by rw [hci]; norm_num⟩
  have htm : (analyze_text "想你想你").total_matches = 2 := rfl
  have hint : (analyze_text "想你想你").intensity =
      if 0 < (analyze_text "想你想你").total_matches
      then (analyze_text "想你想你").weighted_names /
        ((analyze_text "想你想你").total_matches : ℚ)
      else (analyze_text "想你想你").weighted_names := rfl
  have hW : (analyze_text "想你想你").weighted_names =
      ((([("intimate", [("mood", 2)])] :
          List (String × List (String × ℕ))).map
        (fun cp => (cp.2.length : ℚ) * context_intensity cp.1)).sum) := rfl
  rw [hint, htm, if_pos (by norm_num), hW]
  simp [hci]

end TelegramBot
